import Mathlib

/-!
# Verification of the MCP-Essentials tool-orchestration repository

Shallow embedding of the repository's source files:

* `src/servers/bmi_server/server.py` — the `calculate_bmi` tool (arithmetic
  modelled over `ℚ`; Python's binary floating point is not modelled bit-exactly,
  the numbers involved are exactly representable decimals well away from any
  rounding-sensitive boundary except where noted).
* `src/servers/hello_world_server/server.py` — greeting tool and resources.
* `src/clients/bmi_client/client.py` — the orchestrating client's control flow
  after the language-model call returns (`json.loads`, subscripting,
  `session.call_tool` dispatch, result post-processing, follow-up summary call).
  The language model and the server are external collaborators, so the
  completion string and the returned result envelope are parameters of the
  embedding.  `debug_print` (from `src/shared/utils`, a logging helper) has no
  effect on control flow, but Python evaluates its f-string arguments at the
  call site, so the subscript expressions inside those arguments are part of
  the model.
* `src/clients/opencv_client/client.py` — the image-handling client's
  per-content-item normalization loop, base64 encode/decode (Python's
  `base64.b64encode`/`b64decode` on the standard alphabet), data-URI
  construction, and the save-to-disk try/except block (the filesystem write is
  an external collaborator, so its outcome is a parameter).

`json.loads` is embedded as a fuel-bounded recursive-descent parser over the
JSON value grammar (objects, arrays, strings with the standard escapes,
numbers with optional fraction and exponent, `true`/`false`/`null`), with
Python's strictness rules: no leading zeros in numbers, no raw control
characters in strings, only JSON whitespace, and the whole input must be
consumed.  Numbers are kept exactly as written, as a decimal mantissa and
scale.  (Python's non-standard acceptance of `NaN`/`Infinity` and of lone
UTF-16 surrogate escapes is outside the model.)
-/

namespace MCPEssentials

/-! ## BMI server: `src/servers/bmi_server/server.py` -/

/-- Response model for BMI calculation (`BMIResponse` in `server.py`). -/
structure BMIResponse where
  bmi : ℚ
  category : String
  deriving DecidableEq, Repr

/-- Round-half-to-even to an integer, the rounding mode of Python's builtin
`round`. -/
def roundHalfEven (q : ℚ) : ℤ :=
  let f := ⌊q⌋
  let r := q - (f : ℚ)
  if r < 1/2 then f
  else if 1/2 < r then f + 1
  else if f % 2 = 0 then f else f + 1

/-- Python's `round(x, 2)`. -/
def pyRound2 (q : ℚ) : ℚ := (roundHalfEven (q * 100) : ℚ) / 100

/-- `calculate_bmi` from `src/servers/bmi_server/server.py`: convert height to
metres, compute `weight_kg / height_m ** 2`, pick the category by the
`< 18.5 / < 25 / < 30` ladder, and round the BMI to two decimals. -/
def calculate_bmi (weight_kg height_cm : ℚ) : BMIResponse :=
  let height_m := height_cm / 100
  let bmi := weight_kg / (height_m ^ 2)
  let category :=
    if bmi < 18.5 then "Underweight"
    else if bmi < 25 then "Normal"
    else if bmi < 30 then "Overweight"
    else "Obese"
  { bmi := pyRound2 bmi, category := category }

/-- The capability list registered by the BMI server: `calculate_bmi` is its
only `@mcp.tool()`. -/
def bmiServerTools : List String := ["calculate_bmi"]

/-! ## Hello-world server: `src/servers/hello_world_server/server.py` -/

/-- The `hello_world` tool: `f"Hello, {name}!"` with default `name="World"`. -/
def hello_world (name : String := "World") : String := "Hello, " ++ name ++ "!"

/-- The `calculate_sum` tool. -/
def calculate_sum (a b : ℤ) : ℤ := a + b

/-- The dynamic greeting resource `greeting://{name}`. -/
def get_greeting (name : String) : String := "Hello, " ++ name ++ "!"

/-- The static greeting resource `greeting://default`. -/
def get_default_greeting : String := "Hello, World!"

/-! ## Base64 (Python `base64.b64encode` / `base64.b64decode`, standard alphabet)

Used by `src/clients/opencv_client/client.py` lines 85–92.  Bytes are
modelled as natural numbers below 256. -/

/-- The standard base64 alphabet: index 0–25 ↦ `A`–`Z`, 26–51 ↦ `a`–`z`,
52–61 ↦ `0`–`9`, 62 ↦ `+`, 63 ↦ `/`. -/
def sextetChar (n : Nat) : Char :=
  if n < 26 then Char.ofNat (65 + n)
  else if n < 52 then Char.ofNat (97 + (n - 26))
  else if n < 62 then Char.ofNat (48 + (n - 52))
  else if n = 62 then '+'
  else '/'

/-- Inverse of the base64 alphabet on its image. -/
def charSextet (c : Char) : Nat :=
  if 65 ≤ c.toNat ∧ c.toNat ≤ 90 then c.toNat - 65
  else if 97 ≤ c.toNat ∧ c.toNat ≤ 122 then 26 + (c.toNat - 97)
  else if 48 ≤ c.toNat ∧ c.toNat ≤ 57 then 52 + (c.toNat - 48)
  else if c = '+' then 62
  else 63

theorem charSextet_sextetChar_fin : ∀ n : Fin 64, charSextet (sextetChar n.val) = n.val := by
  decide

theorem sextetChar_ne_pad_fin : ∀ n : Fin 64, sextetChar n.val ≠ '=' := by
  decide

theorem charSextet_sextetChar {n : Nat} (h : n < 64) : charSextet (sextetChar n) = n :=
  charSextet_sextetChar_fin ⟨n, h⟩

theorem sextetChar_ne_pad {n : Nat} (h : n < 64) : sextetChar n ≠ '=' :=
  sextetChar_ne_pad_fin ⟨n, h⟩

/-- `base64.b64encode`: three bytes become four alphabet characters; a final
group of one or two bytes is padded with `=`. -/
def b64encode : List Nat → List Char
  | [] => []
  | [a] => [sextetChar (a / 4), sextetChar (a % 4 * 16), '=', '=']
  | [a, b] => [sextetChar (a / 4), sextetChar (a % 4 * 16 + b / 16), sextetChar (b % 16 * 4), '=']
  | a :: b :: c :: rest =>
    sextetChar (a / 4) :: sextetChar (a % 4 * 16 + b / 16) ::
      sextetChar (b % 16 * 4 + c / 64) :: sextetChar (c % 64) :: b64encode rest

/-- Decode one group of four base64 characters, honouring `=` padding. -/
def b64decode4 (c1 c2 c3 c4 : Char) : List Nat :=
  if c3 = '=' then [charSextet c1 * 4 + charSextet c2 / 16]
  else if c4 = '=' then
    [charSextet c1 * 4 + charSextet c2 / 16, charSextet c2 % 16 * 16 + charSextet c3 / 4]
  else
    [charSextet c1 * 4 + charSextet c2 / 16, charSextet c2 % 16 * 16 + charSextet c3 / 4,
      charSextet c3 % 4 * 64 + charSextet c4]

/-- `base64.b64decode` on well-formed input: four characters at a time. -/
def b64decode : List Char → List Nat
  | c1 :: c2 :: c3 :: c4 :: rest => b64decode4 c1 c2 c3 c4 ++ b64decode rest
  | _ => []

/-- `base64.b64encode(..).decode("utf-8")` as used at
`opencv_client/client.py:91`. -/
def b64encodeStr (bs : List Nat) : String := ⟨b64encode bs⟩

/-- `base64.b64decode` on a string, as used at `opencv_client/client.py:88`. -/
def b64decodeStr (s : String) : List Nat := b64decode s.data

theorem b64decode_b64encode (bs : List Nat) (h : ∀ b ∈ bs, b < 256) :
    b64decode (b64encode bs) = bs := by
  induction bs using b64encode.induct with
  | case1 => rfl
  | case2 a =>
    have ha : a < 256 := h a (by simp)
    have r1 := charSextet_sextetChar (show a / 4 < 64 by omega)
    have r2 := charSextet_sextetChar (show a % 4 * 16 < 64 by omega)
    simp only [b64encode, b64decode, b64decode4, eq_self_iff_true, if_true, r1, r2,
      List.append_nil, List.cons.injEq, and_true]
    omega
  | case3 a b =>
    have ha : a < 256 := h a (by simp)
    have hb : b < 256 := h b (by simp)
    have h3 : sextetChar (b % 16 * 4) ≠ '=' := sextetChar_ne_pad (by omega)
    have r1 := charSextet_sextetChar (show a / 4 < 64 by omega)
    have r2 := charSextet_sextetChar (show a % 4 * 16 + b / 16 < 64 by omega)
    have r3 := charSextet_sextetChar (show b % 16 * 4 < 64 by omega)
    simp only [b64encode, b64decode, b64decode4, h3, eq_self_iff_true, if_true, if_false,
      r1, r2, r3, List.append_nil, List.cons.injEq, and_true]
    omega
  | case4 a b c rest ih =>
    have ha : a < 256 := h a (by simp)
    have hb : b < 256 := h b (by simp)
    have hc : c < 256 := h c (by simp)
    have hrest : ∀ x ∈ rest, x < 256 := fun x hx => h x (by simp [hx])
    have h3 : sextetChar (b % 16 * 4 + c / 64) ≠ '=' := sextetChar_ne_pad (by omega)
    have h4 : sextetChar (c % 64) ≠ '=' := sextetChar_ne_pad (by omega)
    have r1 := charSextet_sextetChar (show a / 4 < 64 by omega)
    have r2 := charSextet_sextetChar (show a % 4 * 16 + b / 16 < 64 by omega)
    have r3 := charSextet_sextetChar (show b % 16 * 4 + c / 64 < 64 by omega)
    have r4 := charSextet_sextetChar (show c % 64 < 64 by omega)
    simp only [b64encode, b64decode, b64decode4, h3, h4, if_false, r1, r2, r3, r4,
      List.cons_append, List.nil_append, ih hrest, List.cons.injEq]
    refine ⟨by omega, by omega, by omega, trivial⟩

/-! ## JSON model and parser (Python's `json.loads`)

`bmi_client/client.py:126` parses the language-model completion with
`json.loads`.  A JSON number is kept exactly as written, as
`num mantissa scale` denoting `mantissa * 10 ^ (-scale)`; `"84"` parses to
`num 84 0` and `"2.5"` to `num 25 1`. -/

inductive Json where
  | null
  | bool (value : Bool)
  | num (mantissa : Int) (scale : Int)
  | str (value : String)
  | arr (items : List Json)
  | obj (pairs : List (String × Json))
  deriving Repr

def braceOpen : Char := Char.ofNat 123

def braceClose : Char := Char.ofNat 125

def isJsonWs (c : Char) : Bool := c = ' ' || c = Char.ofNat 9 || c = Char.ofNat 10 || c = Char.ofNat 13

def skipWs (cs : List Char) : List Char := cs.dropWhile isJsonWs

def hexVal? (c : Char) : Option Nat :=
  if '0' ≤ c ∧ c ≤ '9' then some (c.toNat - 48)
  else if 'a' ≤ c ∧ c ≤ 'f' then some (c.toNat - 87)
  else if 'A' ≤ c ∧ c ≤ 'F' then some (c.toNat - 55)
  else none

def parseStringBody : List Char → Option (List Char × List Char)
  | '"' :: rest => some ([], rest)
  | '\\' :: '"' :: rest => (parseStringBody rest).map fun p => ('"' :: p.1, p.2)
  | '\\' :: '\\' :: rest => (parseStringBody rest).map fun p => ('\\' :: p.1, p.2)
  | '\\' :: '/' :: rest => (parseStringBody rest).map fun p => ('/' :: p.1, p.2)
  | '\\' :: 'b' :: rest => (parseStringBody rest).map fun p => (Char.ofNat 8 :: p.1, p.2)
  | '\\' :: 'f' :: rest => (parseStringBody rest).map fun p => (Char.ofNat 12 :: p.1, p.2)
  | '\\' :: 'n' :: rest => (parseStringBody rest).map fun p => (Char.ofNat 10 :: p.1, p.2)
  | '\\' :: 'r' :: rest => (parseStringBody rest).map fun p => (Char.ofNat 13 :: p.1, p.2)
  | '\\' :: 't' :: rest => (parseStringBody rest).map fun p => (Char.ofNat 9 :: p.1, p.2)
  | '\\' :: 'u' :: h1 :: h2 :: h3 :: h4 :: rest =>
    match hexVal? h1, hexVal? h2, hexVal? h3, hexVal? h4 with
    | some v1, some v2, some v3, some v4 =>
      let n := v1 * 4096 + v2 * 256 + v3 * 16 + v4
      if n < 55296 ∨ 57344 ≤ n then
        (parseStringBody rest).map fun p => (Char.ofNat n :: p.1, p.2)
      else none
    | _, _, _, _ => none
  | '\\' :: _ => none
  | c :: rest =>
    if c.toNat < 32 then none
    else (parseStringBody rest).map fun p => (c :: p.1, p.2)
  | [] => none

def digitsToNat (ds : List Char) : Nat := ds.foldl (fun a c => a * 10 + (c.toNat - 48)) 0

def parseNumber (cs : List Char) : Option (Json × List Char) :=
  let neg : Bool := cs.head? == some '-'
  let cs1 := if neg then cs.tail else cs
  let intDigits := cs1.takeWhile Char.isDigit
  let cs2 := cs1.dropWhile Char.isDigit
  if intDigits.isEmpty then none
  else if intDigits.length > 1 ∧ intDigits.headD '0' = '0' then none
  else
    let (fracOk, fracDigits, cs3) := match cs2 with
      | '.' :: r =>
        let fd := r.takeWhile Char.isDigit
        (!fd.isEmpty, fd, r.dropWhile Char.isDigit)
      | _ => (true, ([] : List Char), cs2)
    if fracOk = false then none
    else
      let (expOk, expVal, cs4) := match cs3 with
        | 'e' :: r | 'E' :: r =>
          let (esign, r1) := match r with
            | '+' :: r2 => ((1 : Int), r2)
            | '-' :: r2 => ((-1 : Int), r2)
            | _ => ((1 : Int), r)
          let ed := r1.takeWhile Char.isDigit
          (!ed.isEmpty, esign * (digitsToNat ed : Int), r1.dropWhile Char.isDigit)
        | _ => (true, (0 : Int), cs3)
      if expOk = false then none
      else
        let mant : Int := (if neg then -1 else 1) * (digitsToNat (intDigits ++ fracDigits) : Int)
        some (Json.num mant ((fracDigits.length : Int) - expVal), cs4)

mutual

def parseVal : Nat → List Char → Option (Json × List Char)
  | 0, _ => none
  | fuel + 1, cs =>
    match cs with
    | 'n' :: rest =>
      if rest.take 3 = ['u', 'l', 'l'] then some (Json.null, rest.drop 3) else none
    | 't' :: rest =>
      if rest.take 3 = ['r', 'u', 'e'] then some (Json.bool true, rest.drop 3) else none
    | 'f' :: rest =>
      if rest.take 4 = ['a', 'l', 's', 'e'] then some (Json.bool false, rest.drop 4) else none
    | '"' :: rest => (parseStringBody rest).map fun p => (Json.str ⟨p.1⟩, p.2)
    | '[' :: rest =>
      let rest1 := skipWs rest
      match rest1 with
      | ']' :: r => some (Json.arr [], r)
      | _ => (parseElems fuel rest1).map fun p => (Json.arr p.1, p.2)
    | c :: rest =>
      if c = braceOpen then
        let rest1 := skipWs rest
        match rest1 with
        | c' :: r => if c' = braceClose then some (Json.obj [], r)
                     else (parseMembers fuel rest1).map fun p => (Json.obj p.1, p.2)
        | [] => none
      else parseNumber cs
    | [] => none

def parseElems : Nat → List Char → Option (List Json × List Char)
  | 0, _ => none
  | fuel + 1, cs =>
    match parseVal fuel cs with
    | none => none
    | some (v, rest) =>
      match skipWs rest with
      | ',' :: r => (parseElems fuel (skipWs r)).map fun p => (v :: p.1, p.2)
      | ']' :: r => some ([v], r)
      | _ => none

def parseMembers : Nat → List Char → Option (List (String × Json) × List Char)
  | 0, _ => none
  | fuel + 1, cs =>
    match cs with
    | '"' :: rest =>
      match parseStringBody rest with
      | none => none
      | some (k, rest1) =>
        match skipWs rest1 with
        | ':' :: r2 =>
          match parseVal fuel (skipWs r2) with
          | none => none
          | some (v, rest2) =>
            match skipWs rest2 with
            | ',' :: r3 => (parseMembers fuel (skipWs r3)).map fun p => ((⟨k⟩, v) :: p.1, p.2)
            | c3 :: r3 => if c3 = braceClose then some ([(⟨k⟩, v)], r3) else none
            | [] => none
        | _ => none
    | _ => none

end

def parseJson (s : String) : Option Json :=
  let cs := skipWs s.data
  match parseVal (2 * cs.length + 2) cs with
  | some (j, rest) => if (skipWs rest).isEmpty then some j else none
  | none => none

/-! ## Shared content model (MCP result envelopes)

`session.call_tool` returns a result whose `content` is a list of content
items (`TextContent` with a `.text` attribute, or `ImageContent` whose data is
either raw bytes or base64 text) together with an `isError` flag. -/

/-- The payload of an image content item: Python's `isinstance(img_data, str)`
check at `opencv_client/client.py:85` distinguishes base64 text from raw
bytes. -/
inductive ImgPayload where
  | raw (bytes : List Nat)
  | b64 (s : String)
  deriving Repr

/-- One content item of a result envelope. -/
inductive ContentItem where
  | text (s : String)
  | image (data : ImgPayload) (format : String)
  deriving Repr

/-- The result envelope returned by `session.call_tool`. -/
structure CallToolResult where
  content : List ContentItem
  isError : Bool
  deriving Repr

/-! ## BMI client: `src/clients/bmi_client/client.py`

`main` is modelled from the point where `llm_client` has returned a
completion string (the model is an external collaborator) and parameterized
by the result envelope the server returns to `session.call_tool` (the server
process is an external collaborator).  The model records which effects run
(`call_tool` dispatches, follow-up summary model calls) and which Python
exception, if any, escapes `main`. -/

/-- The Python exceptions that the client's code can raise. -/
inductive PyErr where
  | jsonDecodeError
  | keyError (key : String)
  | typeError
  | indexError
  | attributeError
  deriving DecidableEq, Repr

/-- Python dict/other subscripting `x[key]` with a string key: a dict yields
the value at the key (the last binding, as a Python dict keeps the latest
duplicate) or raises `KeyError`; subscripting any non-dict JSON value with a
string raises `TypeError`. -/
def lookupLast : List (String × Json) → String → Option Json
  | [], _ => none
  | (k, v) :: rest, key =>
    match lookupLast rest key with
    | some r => some r
    | none => if k = key then some v else none

/-- `x[key]` on a decoded JSON value. -/
def pySubscript (j : Json) (key : String) : Except PyErr Json :=
  match j with
  | Json.obj kvs =>
    match lookupLast kvs key with
    | some v => Except.ok v
    | none => Except.error (PyErr.keyError key)
  | _ => Except.error PyErr.typeError

/-- `content.text`: only `TextContent` has a `.text` attribute; accessing it
on an image content item raises `AttributeError`. -/
def contentText : ContentItem → Except PyErr String
  | ContentItem.text s => Except.ok s
  | ContentItem.image _ _ => Except.error PyErr.attributeError

/-- Whether `args[key]` would succeed. -/
def hasKey (j : Json) (key : String) : Bool :=
  match pySubscript j key with
  | Except.ok _ => true
  | Except.error _ => false

/-- A single-quote character as a string (used in the summary prompt
template). -/
def sq : String := String.singleton (Char.ofNat 39)

/-- The observable effects of one run of the BMI client after the first
language-model call: a `session.call_tool` dispatch, and the follow-up
summary call `llm_client(result_prompt)`. -/
inductive BmiAction where
  | callTool (name : Json) (args : Json)
  | llmSummary (prompt : String)
  deriving Repr

/-- One run of the BMI client: the effects that were performed and the
exception, if any, that escaped `main`. -/
structure BmiRun where
  actions : List BmiAction
  outcome : Except PyErr Unit
  deriving Repr

/-- Lines 132–137 of `bmi_client/client.py`, the processing of the result
envelope after `session.call_tool` has returned:
`formatted_result = result.content[0].text` (`IndexError` on an empty list,
`AttributeError` if the first item is an image), then the f-string passed to
`debug_print` evaluates `tool_call["arguments"]["weight_kg"]` and
`tool_call["arguments"]["height_cm"]` (each may raise `KeyError`/`TypeError`),
then the summary prompt
`f"Here is the result for the query \'{query}\': The BMI is {formatted_result}"`
is built.  Returns the summary prompt. -/
def bmiPostProcess (query : String) (args : Json) (toolResult : CallToolResult) :
    Except PyErr String :=
  match toolResult.content.head? with
  | none => Except.error PyErr.indexError
  | some c0 =>
    match contentText c0 with
    | Except.error e => Except.error e
    | Except.ok formatted =>
      match pySubscript args "weight_kg" with
      | Except.error e => Except.error e
      | Except.ok _ =>
        match pySubscript args "height_cm" with
        | Except.error e => Except.error e
        | Except.ok _ =>
          Except.ok ("Here is the result for the query " ++ sq ++ query ++ sq ++
            ": The BMI is " ++ formatted)

/-- Lines 122–138 of `bmi_client/client.py`, from the moment `llm_client`
returns the completion `llm_response`:
`tool_call = json.loads(llm_response)` (raises `json.JSONDecodeError` on
invalid JSON — there is no `try`/`except`), then
`session.call_tool(tool_call["tool"], arguments=tool_call["arguments"])`
(the subscripts may raise; no check against the tool list fetched at line
114), then the post-processing above, then the follow-up summary call. -/
def bmiMainAfterLLM (query llm_response : String) (toolResult : CallToolResult) : BmiRun :=
  match parseJson llm_response with
  | none => { actions := [], outcome := Except.error PyErr.jsonDecodeError }
  | some tool_call =>
    match pySubscript tool_call "tool" with
    | Except.error e => { actions := [], outcome := Except.error e }
    | Except.ok toolName =>
      match pySubscript tool_call "arguments" with
      | Except.error e => { actions := [], outcome := Except.error e }
      | Except.ok args =>
        match bmiPostProcess query args toolResult with
        | Except.error e =>
          { actions := [BmiAction.callTool toolName args], outcome := Except.error e }
        | Except.ok result_prompt =>
          { actions := [BmiAction.callTool toolName args, BmiAction.llmSummary result_prompt],
            outcome := Except.ok () }

/-! ## OpenCV client: `src/clients/opencv_client/client.py`

The loop body at lines 80–112, per content item.  The webcam server and the
filesystem are external collaborators. -/

/-- Lines 85–92: `base64_image` — pass a base64 string through, encode raw
bytes. -/
def opencvBase64Of : ImgPayload → String
  | ImgPayload.b64 s => s
  | ImgPayload.raw bs => b64encodeStr bs

/-- Lines 85–92: `raw_image_data` — decode a base64 string, pass raw bytes
through. -/
def rawImageData : ImgPayload → List Nat
  | ImgPayload.b64 s => b64decodeStr s
  | ImgPayload.raw bs => bs

/-- Lines 80–108: the data URI produced for a content item, or `none` for an
item the `content.type == "image"` check skips.  The format tag of the image
item is ignored: line 108 hardcodes `data:image/png;base64,`. -/
def opencvImageUrl : ContentItem → Option String
  | ContentItem.image data _ => some ("data:image/png;base64," ++ opencvBase64Of data)
  | ContentItem.text _ => none

/-- The observable effects of processing one image item. -/
inductive OpencvAction where
  | savedImage (path : String)
  | loggedSaveError (msg : String)
  | analyzeCall (imageUrl : String) (query : String)
  deriving Repr

/-- Lines 84–112 for one image content item, parameterized by the outcome of
the external filesystem write (`open`/`f.write` inside the `try` at lines
99–105): a write failure is caught, the traceback and message are printed,
and execution falls through to the data-URI construction and the
`analyze_image` call. -/
def processImageItem (query : String) (data : ImgPayload) (writeOutcome : Except String Unit) :
    List OpencvAction :=
  let saveSteps :=
    match writeOutcome with
    | Except.ok _ => [OpencvAction.savedImage "output/debug_screenshot.png"]
    | Except.error e => [OpencvAction.loggedSaveError e]
  saveSteps ++ [OpencvAction.analyzeCall ("data:image/png;base64," ++ opencvBase64Of data) query]

/-! ## Claim theorems -/

/-- Claim C1, counterexample.  For the completion "Tools are not needed
here." — which is not valid JSON — the BMI client's parse step raises
`json.JSONDecodeError` (line 126 has no `try`/`except`): `main` ends with an
exception, no plain-text answer is produced, and no tool is invoked.  This
refutes the claim that the client never raises on a non-JSON completion and
returns it as a direct answer. -/
theorem bmi_client_raises_on_plain_text_completion :
    parseJson "Tools are not needed here." = none ∧
    bmiMainAfterLLM "What is the BMI of a 180cm tall person weighing 84kg?"
        "Tools are not needed here."
        { content := [ContentItem.text "25.93"], isError := false } =
      { actions := [], outcome := Except.error PyErr.jsonDecodeError } :=
  ⟨rfl, rfl⟩

/-- Claim C1, amended.  For every completion that is not valid JSON, the BMI
client raises `json.JSONDecodeError` (which propagates out of `main`; the
completion is not returned as an answer) and performs zero tool
invocations. -/
theorem bmi_client_invalid_json_raises (query llm_response : String)
    (toolResult : CallToolResult) (h : parseJson llm_response = none) :
    bmiMainAfterLLM query llm_response toolResult =
      { actions := [], outcome := Except.error PyErr.jsonDecodeError } := by
  unfold bmiMainAfterLLM
  rw [h]

/-- Witness for `bmi_client_invalid_json_raises` at a concrete non-JSON
completion. -/
theorem bmi_client_invalid_json_raises_witness :
    parseJson "I cannot help with that." = none ∧
    bmiMainAfterLLM "hi" "I cannot help with that." { content := [], isError := false } =
      { actions := [], outcome := Except.error PyErr.jsonDecodeError } :=
  ⟨rfl, bmi_client_invalid_json_raises "hi" "I cannot help with that." _ rfl⟩

/-- Claim C2, counterexample.  For a result envelope with `is_error = true`
and text "camera not found", the BMI client treats the envelope exactly like
successful tool output: no error is surfaced, and the follow-up summary model
call is made with the error text embedded as "The BMI is camera not found"
(lines 130–138 never read `result.isError`).  This refutes the claim that the
orchestrator surfaces an `InvocationError` and makes no follow-up summary
call. -/
theorem bmi_client_error_envelope_summarized :
    bmiMainAfterLLM "What is the BMI of a 180cm tall person weighing 84kg?"
        "\x7b\"tool\": \"calculate_bmi\", \"arguments\": \x7b\"weight_kg\": 84, \"height_cm\": 180\x7d\x7d"
        { content := [ContentItem.text "camera not found"], isError := true } =
      { actions :=
          [BmiAction.callTool (Json.str "calculate_bmi")
            (Json.obj [("weight_kg", Json.num 84 0), ("height_cm", Json.num 180 0)]),
           BmiAction.llmSummary
            ("Here is the result for the query " ++ sq ++
              "What is the BMI of a 180cm tall person weighing 84kg?" ++ sq ++
              ": The BMI is camera not found")],
        outcome := Except.ok () } :=
  rfl

/-- Claim C2, amended.  The BMI client never inspects `is_error`: its whole
run is independent of the envelope's `is_error` flag, and an error envelope
whose first content item is text is processed as a successful result, its
text embedded in the follow-up summary prompt. -/
theorem bmi_client_ignores_is_error :
    (∀ (query llm_response : String) (content : List ContentItem) (b1 b2 : Bool),
      bmiMainAfterLLM query llm_response { content := content, isError := b1 } =
        bmiMainAfterLLM query llm_response { content := content, isError := b2 }) ∧
    (bmiMainAfterLLM "q"
        "\x7b\"tool\": \"calculate_bmi\", \"arguments\": \x7b\"weight_kg\": 84, \"height_cm\": 180\x7d\x7d"
        { content := [ContentItem.text "camera not found"], isError := true }).actions.getLast? =
      some (BmiAction.llmSummary
        ("Here is the result for the query " ++ sq ++ "q" ++ sq ++
          ": The BMI is camera not found")) :=
  ⟨fun _ _ _ _ _ => rfl, rfl⟩

/-- Claim C3, counterexample.  For a parsed invocation naming
`unknown_tool`, which is not in the BMI server's capability list, the client
still invokes `session.call_tool` with that name (line 130 performs no
membership check), so dispatch is not skipped and no
`UnknownCapabilityError`-class result is produced.  This refutes the claim. -/
theorem bmi_client_dispatches_unknown_tool :
    "unknown_tool" ∉ bmiServerTools ∧
    bmiMainAfterLLM "q" "\x7b\"tool\": \"unknown_tool\", \"arguments\": \x7b\x7d\x7d"
        { content := [ContentItem.text "x"], isError := false } =
      { actions := [BmiAction.callTool (Json.str "unknown_tool") (Json.obj [])],
        outcome := Except.error (PyErr.keyError "weight_kg") } :=
  ⟨by decide, rfl⟩

/-- Claim C3, amended.  The BMI client cross-checks nothing against the
capability list: whenever the completion parses to an object with `tool` and
`arguments` fields, `session.call_tool` is dispatched with the parsed name
and arguments, even when that name is not in the most recently fetched
capability list. -/
theorem bmi_client_no_capability_check (query llm_response nm : String)
    (toolResult : CallToolResult) (tool_call args : Json)
    (hp : parseJson llm_response = some tool_call)
    (ht : pySubscript tool_call "tool" = Except.ok (Json.str nm))
    (ha : pySubscript tool_call "arguments" = Except.ok args)
    (hu : nm ∉ bmiServerTools) :
    (bmiMainAfterLLM query llm_response toolResult).actions.head? =
      some (BmiAction.callTool (Json.str nm) args) := by
  unfold bmiMainAfterLLM
  rw [hp]
  simp only [ht, ha]
  cases bmiPostProcess query args toolResult <;> rfl

/-- Witness for `bmi_client_no_capability_check` at a concrete completion
naming a capability outside the list. -/
theorem bmi_client_no_capability_check_witness :
    "frobnicate" ∉ bmiServerTools ∧
    (bmiMainAfterLLM "hello" "\x7b\"tool\": \"frobnicate\", \"arguments\": \x7b\"weight_kg\": 1, \"height_cm\": 2\x7d\x7d"
        { content := [ContentItem.text "ok"], isError := false }).actions.head? =
      some (BmiAction.callTool (Json.str "frobnicate")
        (Json.obj [("weight_kg", Json.num 1 0), ("height_cm", Json.num 2 0)])) :=
  ⟨by decide,
    bmi_client_no_capability_check "hello" _ "frobnicate" _ _ _ rfl rfl rfl (by decide)⟩

/-- Claim C4, counterexample.  `calculate_bmi(weight_kg=84, height_cm=180)`
computes BMI 84 / 1.8² ≈ 25.93, and the server's category ladder
(`Normal` only below 25) categorizes it as "Overweight", not "Normal" as the
claim states. -/
theorem calculate_bmi_scenario_a_not_normal :
    (calculate_bmi 84 180).category ≠ "Normal" := by
  simp only [calculate_bmi, pyRound2, roundHalfEven]
  norm_num
  decide

/-- Claim C4, amended.  For Scenario A's arguments `weight_kg=84,
height_cm=180`, the server returns the numeric BMI 25.93 (≈ 25.9) and
categorizes it as "Overweight". -/
theorem calculate_bmi_scenario_a :
    calculate_bmi 84 180 = { bmi := 2593 / 100, category := "Overweight" } := by
  simp only [calculate_bmi, pyRound2, roundHalfEven]
  norm_num

/-- Claim C5.  For all positive `weight_kg` and `height_cm` whose computed
BMI `weight_kg / (height_cm/100)^2` is exactly 25, the `< 25` comparison is
false and the `< 30` comparison is true, so `calculate_bmi` categorizes the
result as "Overweight", not "Normal". -/
theorem calculate_bmi_boundary_25 (w h : ℚ) (hw : 0 < w) (hh : 0 < h)
    (hbmi : w / (h / 100) ^ 2 = 25) :
    (calculate_bmi w h).category = "Overweight" ∧ (calculate_bmi w h).category ≠ "Normal" := by
  have hcat : (calculate_bmi w h).category = "Overweight" := by
    simp only [calculate_bmi]
    rw [hbmi]
    norm_num
  exact ⟨hcat, by rw [hcat]; decide⟩

/-- Witness for `calculate_bmi_boundary_25`: 81 kg at 180 cm gives a BMI of
exactly 25. -/
theorem calculate_bmi_boundary_25_witness :
    (0 : ℚ) < 81 ∧ (0 : ℚ) < 180 ∧ (81 : ℚ) / (180 / 100) ^ 2 = 25 ∧
    ((calculate_bmi 81 180).category = "Overweight" ∧
      (calculate_bmi 81 180).category ≠ "Normal") :=
  ⟨by norm_num, by norm_num, by norm_num,
    calculate_bmi_boundary_25 81 180 (by norm_num) (by norm_num) (by norm_num)⟩

/-- Claim C6.  For every sequence of raw image bytes, the encode/decode pair
used by the image-handling client (`base64.b64encode(...).decode("utf-8")`
at line 91 and `base64.b64decode` at line 88) is a round trip: decoding the
base64 text yields exactly the original bytes. -/
theorem b64_roundtrip (bs : List Nat) (h : ∀ b ∈ bs, b < 256) :
    b64decodeStr (b64encodeStr bs) = bs :=
  b64decode_b64encode bs h

/-- Witness for `b64_roundtrip` on a concrete byte sequence exercising all
three padding shapes across chunks. -/
theorem b64_roundtrip_witness :
    (∀ b ∈ [77, 97, 110, 0, 255, 16, 7], b < 256) ∧
    b64decodeStr (b64encodeStr [77, 97, 110, 0, 255, 16, 7]) = [77, 97, 110, 0, 255, 16, 7] :=
  ⟨by decide, b64_roundtrip [77, 97, 110, 0, 255, 16, 7] (by decide)⟩

/-- Claim C7, counterexample.  An image content item whose declared format is
"jpeg" is still embedded as `data:image/png;base64,...` — line 108 hardcodes
the `png` format tag instead of using the item's format — and a text content
item is skipped by the loop (the `content.type == "image"` check), not passed
through.  This refutes the `data:image/<format>` part of the claim. -/
theorem opencv_format_hardcoded_png :
    opencvImageUrl (ContentItem.image (ImgPayload.b64 "QUJD") "jpeg") =
      some "data:image/png;base64,QUJD" ∧
    ("data:image/png;base64,QUJD" : String) ≠ "data:image/jpeg;base64,QUJD" ∧
    opencvImageUrl (ContentItem.text "hello") = none :=
  ⟨rfl, by decide, rfl⟩

/-- Claim C7, amended.  For every image content item the client builds the
data URI `data:image/png;base64,<payload>` regardless of the item's declared
format — raw bytes are base64-encoded first, base64 text passes through
unchanged into the payload — and non-image (text) content items are skipped
by the loop, producing no URI. -/
theorem opencv_normalize_amended :
    (∀ (s fmt : String),
      opencvImageUrl (ContentItem.image (ImgPayload.b64 s) fmt) =
        some ("data:image/png;base64," ++ s)) ∧
    (∀ (bs : List Nat) (fmt : String),
      opencvImageUrl (ContentItem.image (ImgPayload.raw bs) fmt) =
        some ("data:image/png;base64," ++ b64encodeStr bs)) ∧
    (∀ t : String, opencvImageUrl (ContentItem.text t) = none) :=
  ⟨fun _ _ => rfl, fun _ _ => rfl, fun _ => rfl⟩

/-- Claim C8.  For every failure of the image-persistence side effect (the
`open`/`write` block in the `try` at lines 99–105), the failure is logged and
never propagated: processing continues and still performs the follow-up
`analyze_image` call with the same data URI as on the success path. -/
theorem opencv_save_failure_nonfatal :
    ∀ (query : String) (data : ImgPayload) (e : String),
      processImageItem query data (Except.error e) =
        [OpencvAction.loggedSaveError e,
         OpencvAction.analyzeCall ("data:image/png;base64," ++ opencvBase64Of data) query] ∧
      (processImageItem query data (Except.error e)).getLast? =
        (processImageItem query data (Except.ok ())).getLast? :=
  fun _ _ _ => ⟨rfl, rfl⟩

/-- Claim C9.  For every name, the `hello_world` tool and the dynamic
greeting resource `get_greeting` return the same string `Hello, <name>!`;
at the default name "World" they both agree with the static resource
`get_default_greeting`, which is exactly "Hello, World!". -/
theorem greetings_agree :
    (∀ name : String, hello_world name = get_greeting name) ∧
    hello_world "World" = get_default_greeting ∧
    get_greeting "World" = get_default_greeting ∧
    get_default_greeting = "Hello, World!" :=
  ⟨fun _ => rfl, rfl, rfl, rfl⟩

/-- Claim C10.  The BMI client's post-invocation processing (lines 130–137)
succeeds only when the result envelope has at least one content item and the
parsed arguments mapping has both the `weight_kg` and `height_cm` keys; an
envelope with empty content makes `result.content[0]` raise `IndexError`, and
a valid tool call whose arguments lack `weight_kg` makes the subscript in the
debug f-string raise `KeyError`, instead of degrading gracefully. -/
theorem bmi_post_process_preconditions :
    (∀ (query : String) (args : Json) (r : CallToolResult) (p : String),
      bmiPostProcess query args r = Except.ok p →
      r.content ≠ [] ∧ hasKey args "weight_kg" = true ∧ hasKey args "height_cm" = true) ∧
    bmiPostProcess "q"
        (Json.obj [("weight_kg", Json.num 84 0), ("height_cm", Json.num 180 0)])
        { content := [], isError := false } =
      Except.error PyErr.indexError ∧
    bmiPostProcess "q" (Json.obj [("height_cm", Json.num 180 0)])
        { content := [ContentItem.text "25.93"], isError := false } =
      Except.error (PyErr.keyError "weight_kg") := by
  refine ⟨?_, rfl, rfl⟩
  intro query args r p hp
  unfold bmiPostProcess at hp
  split at hp
  · simp at hp
  · rename_i c0 hc
    have hne : r.content ≠ [] := by
      intro hnil
      rw [hnil] at hc
      simp at hc
    split at hp
    · simp at hp
    · rename_i formatted hct
      split at hp
      · simp at hp
      · rename_i v1 hw
        split at hp
        · simp at hp
        · rename_i v2 hh
          exact ⟨hne, by simp only [hasKey, hw], by simp only [hasKey, hh]⟩

/-- Witness for the universally quantified part of
`bmi_post_process_preconditions`, applied at a successful concrete run. -/
theorem bmi_post_process_preconditions_witness :
    ({ content := [ContentItem.text "25.93"], isError := false } : CallToolResult).content ≠ [] ∧
    hasKey (Json.obj [("weight_kg", Json.num 84 0), ("height_cm", Json.num 180 0)])
      "weight_kg" = true ∧
    hasKey (Json.obj [("weight_kg", Json.num 84 0), ("height_cm", Json.num 180 0)])
      "height_cm" = true :=
  bmi_post_process_preconditions.1 "q2"
    (Json.obj [("weight_kg", Json.num 84 0), ("height_cm", Json.num 180 0)])
    { content := [ContentItem.text "25.93"], isError := false }
    ("Here is the result for the query " ++ sq ++ "q2" ++ sq ++ ": The BMI is 25.93") rfl

end MCPEssentials
